import Mathlib

/-!
A verification development for the `ris-rs` RIS bibliography (de)serializer
(`src/lib.rs`).  The Rust code is shallowly embedded: every definition below
mirrors one Rust item (its source name is kept where Lean allows it), strings
are Lean `String`s and the two lazily-initialized regexes (`LINE_RE` and
`DATE_RE`) are modelled as executable scanners with the `regex` crate's
unanchored, leftmost-match semantics.  The `\d` of `DATE_RE` is the regex
crate's default Unicode-aware class `Nd`, and the `i32` parses of the
captured groups are modelled as fallible, failing on non-ASCII digit runs
exactly as `str::parse::<i32>` does.
-/

/-- Character class `[A-Z]` of `LINE_RE`. -/
def isUpperAZ (c : Char) : Bool := 'A' ≤ c && c ≤ 'Z'

/-- Character class `[A-Z0-9]` of `LINE_RE`. -/
def isUpperOrDigitAZ (c : Char) : Bool := isUpperAZ c || c.isDigit

set_option maxHeartbeats 1600000 in
/-- Reference type of an entry (Rust `enum ReferenceType`). -/
inductive ReferenceType where
  | Abstract
  | AudiovisualMaterial
  | AggregatedDatabase
  | AncientText
  | ArtWork
  | Bill
  | Blog
  | WholeBook
  | Case
  | BookChapter
  | Chart
  | ClassicalWork
  | ComputerProgram
  | ConferenceProceeding
  | ConferencePaper
  | Catalog
  | DataFile
  | OnlineDatabase
  | Dictionary
  | ElectronicBook
  | ElectronicBookSection
  | EditedBook
  | ElectronicArticle
  | WebPage
  | Encyclopedia
  | Equation
  | Figure
  | Generic
  | GovernmentDocument
  | Grant
  | Hearing
  | InternetCommunication
  | InPress
  | JournalFull
  | Journal
  | LegalRuleOrRegulation
  | Manuscript
  | Map
  | MagazineArticle
  | MotionPicture
  | OnlineMultimedia
  | MusicScore
  | Newspaper
  | Pamphlet
  | Patent
  | PersonalCommunication
  | Report
  | SerialPublication
  | Slide
  | SoundRecording
  | Standard
  | Statute
  | ThesisOrDissertation
  | UnpublishedWork
  | VideoRecording
  | Other (s : String)
deriving Repr

/-- Injective encoding of `ReferenceType` into `Nat ⊕ String` (the 55
constant constructors by position, `Other` by its payload), used only to
build a decidable-equality instance with a small term. -/
def refTypeEnc : ReferenceType → Nat ⊕ String
  | .Abstract => .inl 0
  | .AudiovisualMaterial => .inl 1
  | .AggregatedDatabase => .inl 2
  | .AncientText => .inl 3
  | .ArtWork => .inl 4
  | .Bill => .inl 5
  | .Blog => .inl 6
  | .WholeBook => .inl 7
  | .Case => .inl 8
  | .BookChapter => .inl 9
  | .Chart => .inl 10
  | .ClassicalWork => .inl 11
  | .ComputerProgram => .inl 12
  | .ConferenceProceeding => .inl 13
  | .ConferencePaper => .inl 14
  | .Catalog => .inl 15
  | .DataFile => .inl 16
  | .OnlineDatabase => .inl 17
  | .Dictionary => .inl 18
  | .ElectronicBook => .inl 19
  | .ElectronicBookSection => .inl 20
  | .EditedBook => .inl 21
  | .ElectronicArticle => .inl 22
  | .WebPage => .inl 23
  | .Encyclopedia => .inl 24
  | .Equation => .inl 25
  | .Figure => .inl 26
  | .Generic => .inl 27
  | .GovernmentDocument => .inl 28
  | .Grant => .inl 29
  | .Hearing => .inl 30
  | .InternetCommunication => .inl 31
  | .InPress => .inl 32
  | .JournalFull => .inl 33
  | .Journal => .inl 34
  | .LegalRuleOrRegulation => .inl 35
  | .Manuscript => .inl 36
  | .Map => .inl 37
  | .MagazineArticle => .inl 38
  | .MotionPicture => .inl 39
  | .OnlineMultimedia => .inl 40
  | .MusicScore => .inl 41
  | .Newspaper => .inl 42
  | .Pamphlet => .inl 43
  | .Patent => .inl 44
  | .PersonalCommunication => .inl 45
  | .Report => .inl 46
  | .SerialPublication => .inl 47
  | .Slide => .inl 48
  | .SoundRecording => .inl 49
  | .Standard => .inl 50
  | .Statute => .inl 51
  | .ThesisOrDissertation => .inl 52
  | .UnpublishedWork => .inl 53
  | .VideoRecording => .inl 54
  | .Other s => .inr s

/-- Left inverse of `refTypeEnc`. -/
def refTypeDec : Nat ⊕ String → ReferenceType
  | .inl 0 => .Abstract
  | .inl 1 => .AudiovisualMaterial
  | .inl 2 => .AggregatedDatabase
  | .inl 3 => .AncientText
  | .inl 4 => .ArtWork
  | .inl 5 => .Bill
  | .inl 6 => .Blog
  | .inl 7 => .WholeBook
  | .inl 8 => .Case
  | .inl 9 => .BookChapter
  | .inl 10 => .Chart
  | .inl 11 => .ClassicalWork
  | .inl 12 => .ComputerProgram
  | .inl 13 => .ConferenceProceeding
  | .inl 14 => .ConferencePaper
  | .inl 15 => .Catalog
  | .inl 16 => .DataFile
  | .inl 17 => .OnlineDatabase
  | .inl 18 => .Dictionary
  | .inl 19 => .ElectronicBook
  | .inl 20 => .ElectronicBookSection
  | .inl 21 => .EditedBook
  | .inl 22 => .ElectronicArticle
  | .inl 23 => .WebPage
  | .inl 24 => .Encyclopedia
  | .inl 25 => .Equation
  | .inl 26 => .Figure
  | .inl 27 => .Generic
  | .inl 28 => .GovernmentDocument
  | .inl 29 => .Grant
  | .inl 30 => .Hearing
  | .inl 31 => .InternetCommunication
  | .inl 32 => .InPress
  | .inl 33 => .JournalFull
  | .inl 34 => .Journal
  | .inl 35 => .LegalRuleOrRegulation
  | .inl 36 => .Manuscript
  | .inl 37 => .Map
  | .inl 38 => .MagazineArticle
  | .inl 39 => .MotionPicture
  | .inl 40 => .OnlineMultimedia
  | .inl 41 => .MusicScore
  | .inl 42 => .Newspaper
  | .inl 43 => .Pamphlet
  | .inl 44 => .Patent
  | .inl 45 => .PersonalCommunication
  | .inl 46 => .Report
  | .inl 47 => .SerialPublication
  | .inl 48 => .Slide
  | .inl 49 => .SoundRecording
  | .inl 50 => .Standard
  | .inl 51 => .Statute
  | .inl 52 => .ThesisOrDissertation
  | .inl 53 => .UnpublishedWork
  | .inl 54 => .VideoRecording
  | .inl _ => .Abstract
  | .inr s => .Other s

instance : DecidableEq ReferenceType := fun a b =>
  decidable_of_iff (refTypeEnc a = refTypeEnc b)
    ⟨fun h => by
        have ha : refTypeDec (refTypeEnc a) = a := by cases a <;> rfl
        have hb : refTypeDec (refTypeEnc b) = b := by cases b <;> rfl
        rw [← ha, h, hb],
     fun h => by rw [h]⟩

/-- The fixed code table of Rust `impl FromStr for ReferenceType`, one pair
per `match` arm, in source order. -/
def refTypeTable : List (String × ReferenceType) :=
  [("ABST", .Abstract),
   ("ADVS", .AudiovisualMaterial),
   ("AGGR", .AggregatedDatabase),
   ("ANCIENT", .AncientText),
   ("ART", .ArtWork),
   ("BILL", .Bill),
   ("BLOG", .Blog),
   ("BOOK", .WholeBook),
   ("CASE", .Case),
   ("CHAP", .BookChapter),
   ("CHART", .Chart),
   ("CLSWK", .ClassicalWork),
   ("COMP", .ComputerProgram),
   ("CONF", .ConferenceProceeding),
   ("CPAPER", .ConferencePaper),
   ("CTLG", .Catalog),
   ("DATA", .DataFile),
   ("DBASE", .OnlineDatabase),
   ("DICT", .Dictionary),
   ("EBOOK", .ElectronicBook),
   ("ECHAP", .ElectronicBookSection),
   ("EDBOOK", .EditedBook),
   ("EJOUR", .ElectronicArticle),
   ("ELEC", .WebPage),
   ("ENCYC", .Encyclopedia),
   ("EQUA", .Equation),
   ("FIGURE", .Figure),
   ("GEN", .Generic),
   ("GOVDOC", .GovernmentDocument),
   ("GRANT", .Grant),
   ("HEAR", .Hearing),
   ("ICOMM", .InternetCommunication),
   ("INPR", .InPress),
   ("JFULL", .JournalFull),
   ("JOUR", .Journal),
   ("LEGAL", .LegalRuleOrRegulation),
   ("MANSCPT", .Manuscript),
   ("MAP", .Map),
   ("MGZN", .MagazineArticle),
   ("MPCT", .MotionPicture),
   ("MULTI", .OnlineMultimedia),
   ("MUSIC", .MusicScore),
   ("NEWS", .Newspaper),
   ("PAMP", .Pamphlet),
   ("PAT", .Patent),
   ("PCOMM", .PersonalCommunication),
   ("RPRT", .Report),
   ("SER", .SerialPublication),
   ("SLIDE", .Slide),
   ("SOUND", .SoundRecording),
   ("STAND", .Standard),
   ("STAT", .Statute),
   ("THES", .ThesisOrDissertation),
   ("UNPB", .UnpublishedWork),
   ("VIDEO", .VideoRecording)]

/-- First-match dispatch over the arms of a Rust `match` on disjoint string
constants: the first pair whose code equals `s` wins, the fall-through arm
wrapping `s` in `Other`. -/
def tableLookup (s : String) : List (String × ReferenceType) → ReferenceType
  | [] => .Other s
  | (c, r) :: rest => if s = c then r else tableLookup s rest

/-- Rust `impl FromStr for ReferenceType` (total, `Err = Infallible`): the
fixed table, any non-matching string wrapped in `Other`. -/
def refTypeFromStr (s : String) : ReferenceType :=
  tableLookup s refTypeTable

/-- Rust `impl Display for ReferenceType`: each named variant maps to its
single canonical code string, `Other(s)` serializes `s` unchanged. -/
def refTypeToString : ReferenceType → String
  | .Abstract => "ABST"
  | .AudiovisualMaterial => "ADVS"
  | .AggregatedDatabase => "AGGR"
  | .AncientText => "ANCIENT"
  | .ArtWork => "ART"
  | .Bill => "BILL"
  | .Blog => "BLOG"
  | .WholeBook => "BOOK"
  | .Case => "CASE"
  | .BookChapter => "CHAP"
  | .Chart => "CHART"
  | .ClassicalWork => "CLSWK"
  | .ComputerProgram => "COMP"
  | .ConferenceProceeding => "CONF"
  | .ConferencePaper => "CPAPER"
  | .Catalog => "CTLG"
  | .DataFile => "DATA"
  | .OnlineDatabase => "DBASE"
  | .Dictionary => "DICT"
  | .ElectronicBook => "EBOOK"
  | .ElectronicBookSection => "ECHAP"
  | .EditedBook => "EDBOOK"
  | .ElectronicArticle => "EJOUR"
  | .WebPage => "ELEC"
  | .Encyclopedia => "ENCYC"
  | .Equation => "EQUA"
  | .Figure => "FIGURE"
  | .Generic => "GEN"
  | .GovernmentDocument => "GOVDOC"
  | .Grant => "GRANT"
  | .Hearing => "HEAR"
  | .InternetCommunication => "ICOMM"
  | .InPress => "INPR"
  | .JournalFull => "JFULL"
  | .Journal => "JOUR"
  | .LegalRuleOrRegulation => "LEGAL"
  | .Manuscript => "MANSCPT"
  | .Map => "MAP"
  | .MagazineArticle => "MGZN"
  | .MotionPicture => "MPCT"
  | .OnlineMultimedia => "MULTI"
  | .MusicScore => "MUSIC"
  | .Newspaper => "NEWS"
  | .Pamphlet => "PAMP"
  | .Patent => "PAT"
  | .PersonalCommunication => "PCOMM"
  | .Report => "RPRT"
  | .SerialPublication => "SER"
  | .Slide => "SLIDE"
  | .SoundRecording => "SOUND"
  | .Standard => "STAND"
  | .Statute => "STAT"
  | .ThesisOrDissertation => "THES"
  | .UnpublishedWork => "UNPB"
  | .VideoRecording => "VIDEO"
  | .Other s => s

/-- Rust `struct PublicationDate`: `year` mandatory (`i32`), the rest
optional.  Four ASCII digits always fit in `i32`, so `Int` is exact here. -/
structure PublicationDate where
  year : Int
  month : Option Int
  day : Option Int
  other_info : Option String
deriving DecidableEq, Repr

/-- Numeric value of an ASCII digit. -/
def digitVal (c : Char) : Int := Int.ofNat (c.toNat - '0'.toNat)

/-- Value of a four-ASCII-digit year group, as `str::parse::<i32>` reads
it. -/
def yearVal (d1 d2 d3 d4 : Char) : Int :=
  digitVal d1 * 1000 + digitVal d2 * 100 + digitVal d3 * 10 + digitVal d4

/-- The codepoint ranges of the Unicode `Nd` (decimal number) category
(Unicode 14.0): the regex crate's default, Unicode-aware `\d` is `\p\x7bNd\x7d`,
not just ASCII `0-9`. -/
def ndRanges : List (Nat × Nat) :=
  [(48, 57), (1632, 1641), (1776, 1785), (1984, 1993), (2406, 2415),
   (2534, 2543), (2662, 2671), (2790, 2799), (2918, 2927), (3046, 3055),
   (3174, 3183), (3302, 3311), (3430, 3439), (3558, 3567), (3664, 3673),
   (3792, 3801), (3872, 3881), (4160, 4169), (4240, 4249), (6112, 6121),
   (6160, 6169), (6470, 6479), (6608, 6617), (6784, 6793), (6800, 6809),
   (6992, 7001), (7088, 7097), (7232, 7241), (7248, 7257), (42528,
   42537), (43216, 43225), (43264, 43273), (43472, 43481), (43504,
   43513), (43600, 43609), (44016, 44025), (65296, 65305), (66720,
   66729), (68912, 68921), (69734, 69743), (69872, 69881), (69942,
   69951), (70096, 70105), (70384, 70393), (70736, 70745), (70864,
   70873), (71248, 71257), (71360, 71369), (71472, 71481), (71904,
   71913), (72016, 72025), (72784, 72793), (73040, 73049), (73120,
   73129), (92768, 92777), (92864, 92873), (93008, 93017), (120782,
   120831), (123200, 123209), (123632, 123641), (125264, 125273),
   (130032, 130041)]

/-- The `\d` character class of `DATE_RE`: any Unicode decimal digit. -/
def isNd (c : Char) : Bool :=
  ndRanges.any fun p => p.1 ≤ c.toNat && c.toNat ≤ p.2

/-- The four capture groups of a `DATE_RE` match, before any numeric
parsing.  `\d` matches any Unicode decimal digit, so the captured year,
month and day are digit runs whose later `i32` parses can still fail (on
non-ASCII digits); `other_info` needs no parse and is kept as a string. -/
structure DateCaptures where
  year : List Char
  month : Option (List Char)
  day : Option (List Char)
  other_info : Option String
deriving DecidableEq, Repr

/-- Stage of `DATE_RE` after the day: `(?:/(.+)?)?`.  The group is entered
iff the next character is `/`; `.+` then greedily captures the maximal
nonempty run of non-newline characters, else `other_info` stays absent. -/
def otherStage (y : List Char) (m d : Option (List Char)) :
    List Char → DateCaptures
  | c :: r5 =>
    if c = '/' then
      let o := r5.takeWhile (fun ch => ch != '\n')
      ⟨y, m, d, if o.isEmpty then none else some ⟨o⟩⟩
    else ⟨y, m, d, none⟩
  | [] => ⟨y, m, d, none⟩

/-- Stage of `DATE_RE` inside the day group: `(\d\d)?` greedily captures two
Unicode digits when present, consuming nothing otherwise. -/
def dayPart (y : List Char) (m : Option (List Char)) :
    List Char → DateCaptures
  | a :: b :: r4 =>
    if isNd a ∧ isNd b then otherStage y m (some [a, b]) r4
    else otherStage y m none (a :: b :: r4)
  | r3 => otherStage y m none r3

/-- Stage of `DATE_RE` after the month: `(?:/(\d\d)?(?:/(.+)?)?)?`, entered
iff the next character is `/`. -/
def dayStage (y : List Char) (m : Option (List Char)) :
    List Char → DateCaptures
  | c :: r3 =>
    if c = '/' then dayPart y m r3
    else ⟨y, m, none, none⟩
  | [] => ⟨y, m, none, none⟩

/-- Stage of `DATE_RE` inside the month group: `(\d\d)?` greedily captures
two Unicode digits when present, consuming nothing otherwise. -/
def monthPart (y : List Char) : List Char → DateCaptures
  | a :: b :: r2 =>
    if isNd a ∧ isNd b then dayStage y (some [a, b]) r2
    else dayStage y none (a :: b :: r2)
  | r1 => dayStage y none r1

/-- Stage of `DATE_RE` after the year:
`(?:/(\d\d)?(?:/(\d\d)?(?:/(.+)?)?)?)?`, entered iff the next character is
`/`. -/
def dateTail (y : List Char) : List Char → DateCaptures
  | c :: r1 =>
    if c = '/' then monthPart y r1
    else ⟨y, none, none, none⟩
  | [] => ⟨y, none, none, none⟩

/-- Match of the full `DATE_RE` pattern
`(\d\d\d\d)(?:/(\d\d)?(?:/(\d\d)?(?:/(.+)?)?)?)?` starting at the head of
the list: a match starts here iff the first four characters are Unicode
decimal digits (everything past the year is optional); the optional groups
then match greedily. -/
def dateMatchAt : List Char → Option DateCaptures
  | d1 :: d2 :: d3 :: d4 :: rest =>
    if isNd d1 ∧ isNd d2 ∧ isNd d3 ∧ isNd d4 then
      some (dateTail [d1, d2, d3, d4] rest)
    else none
  | _ => none

/-- Unanchored search of `DATE_RE` (`Regex::captures` semantics): the match
starting at the leftmost possible position wins; `none` when no position
matches. -/
def findDate : List Char → Option DateCaptures
  | [] => none
  | c :: rest =>
    match dateMatchAt (c :: rest) with
    | some d => some d
    | none => findDate rest

/-- Rust `str::parse::<i32>` on a captured digit group: the group is a
nonempty run of Unicode decimal digits, none of which can be a sign, so the
parse succeeds exactly when all of them are ASCII digits (and at most four
ASCII digits cannot overflow an `i32`). -/
def parseI32Digits (l : List Char) : Option Int :=
  if !l.isEmpty && l.all Char.isDigit then
    some (l.foldl (fun acc c => acc * 10 + digitVal c) 0)
  else none

/-- Rust `matches.get(i).map(|m| m.as_str().parse()).transpose()`: an absent
group yields an absent component, a present group whose parse fails fails
the whole date. -/
def parseOptGroup : Option (List Char) → Option (Option Int)
  | none => some none
  | some l =>
    match parseI32Digits l with
    | some v => some (some v)
    | none => none

/-- Rust `impl FromStr for PublicationDate`: `DATE_RE.captures(s)`, then the
`i32` parses of the captured year/month/day groups; `none` models
`Err(ParseDateError)`, arising either from no regex match or from a captured
non-ASCII digit run whose `i32` parse fails. -/
def pubDateFromStr (s : String) : Option PublicationDate :=
  match findDate s.data with
  | none => none
  | some caps =>
    match parseI32Digits caps.year, parseOptGroup caps.month,
        parseOptGroup caps.day with
    | some y, some m, some d => some ⟨y, m, d, caps.other_info⟩
    | _, _, _ => none

/-- Decimal digits of `n` left-padded with zeros to width `w` (the digit part
of Rust's `{:0w}` formatting). -/
def natPadZeros (w : Nat) (n : Nat) : String :=
  let s := Nat.repr n
  ⟨List.replicate (w - s.length) '0'⟩ ++ s

/-- Rust `{:0w}` formatting of an `i32`: total width `w`, zero padding
inserted after the sign. -/
def intPadZeros (w : Nat) (i : Int) : String :=
  if i < 0 then "-" ++ natPadZeros (w - 1) i.natAbs
  else natPadZeros w i.natAbs

/-- Rust `impl Display for PublicationDate`: `{:04}` year, then the three
separating slashes always, month and day `{:02}` when present, `other_info`
verbatim when present. -/
def pubDateToString (d : PublicationDate) : String :=
  intPadZeros 4 d.year ++ "/"
    ++ (match d.month with
        | some m => intPadZeros 2 m
        | none => "")
    ++ "/"
    ++ (match d.day with
        | some dd => intPadZeros 2 dd
        | none => "")
    ++ "/"
    ++ (match d.other_info with
        | some o => o
        | none => "")

example : pubDateFromStr "1998" = some ⟨1998, none, none, none⟩ := by decide
example : pubDateFromStr "1948/07//" = some ⟨1948, some 7, none, none⟩ := by decide
example : pubDateFromStr "1995/12/01/someotherinfo"
    = some ⟨1995, some 12, some 1, some "someotherinfo"⟩ := by decide
example : pubDateFromStr "1998/3//" = some ⟨1998, none, none, none⟩ := by decide
example : pubDateFromStr "x1998" = some ⟨1998, none, none, none⟩ := by decide
example : pubDateFromStr "abc" = none := by decide
example : pubDateFromStr "1998/٥٥/" = none := by decide
example : pubDateFromStr "٥٥٥٥1998" = none := by decide
example : pubDateToString ⟨1998, none, none, none⟩ = "1998///" := by decide
example : pubDateToString ⟨1948, some 7, none, none⟩ = "1948/07//" := by decide

set_option maxHeartbeats 1600000 in
/-- Rust `struct Entry`: one bibliographic record.  Field names, types and
tag comments follow the source exactly. -/
structure Entry where
  reference_type : ReferenceType
  id : Option String
  title : Option String
  secondary_title : Option String
  tertiary_title : Option String
  authors : List String
  secondary_authors : List String
  tertiary_authors : List String
  primary_date : Option PublicationDate
  secondary_date : Option PublicationDate
  notes : Option String
  abstract_ : Option String
  keywords : List String
  reprint : Option String
  availability : Option String
  caption : Option String
  call_number : Option String
  doi : Option String
  start_page : Option String
  end_page : Option String
  journal : Option String
  journal_abbrev : Option String
  journal_abbrev_1 : Option String
  journal_abbrev_2 : Option String
  volume : Option String
  issue : Option String
  city : Option String
  publisher : Option String
  serial_number : Option String
  address : Option String
  user_1 : Option String
  user_2 : Option String
  user_3 : Option String
  user_4 : Option String
  user_5 : Option String
  custom_1 : Option String
  custom_2 : Option String
  custom_3 : Option String
  custom_4 : Option String
  custom_5 : Option String
  custom_6 : Option String
  custom_7 : Option String
  custom_8 : Option String
  misc_1 : Option String
  misc_2 : Option String
  misc_3 : Option String
deriving DecidableEq, Repr

/-- Rust `Entry::new`: only the reference type populated, everything else
absent or empty. -/
def Entry.new (reference_type : ReferenceType) : Entry where
  reference_type := reference_type
  id := none
  title := none
  secondary_title := none
  tertiary_title := none
  authors := []
  secondary_authors := []
  tertiary_authors := []
  primary_date := none
  secondary_date := none
  notes := none
  abstract_ := none
  keywords := []
  reprint := none
  availability := none
  caption := none
  call_number := none
  doi := none
  start_page := none
  end_page := none
  journal := none
  journal_abbrev := none
  journal_abbrev_1 := none
  journal_abbrev_2 := none
  volume := none
  issue := none
  city := none
  publisher := none
  serial_number := none
  address := none
  user_1 := none
  user_2 := none
  user_3 := none
  user_4 := none
  user_5 := none
  custom_1 := none
  custom_2 := none
  custom_3 := none
  custom_4 := none
  custom_5 := none
  custom_6 := none
  custom_7 := none
  custom_8 := none
  misc_1 := none
  misc_2 := none
  misc_3 := none

/-- The kind of a parse error (Rust `enum ParseErrorKind`). -/
inductive ParseErrorKind where
  | TagOutsideEntry
  | UnterminatedEntry
  | InvalidKey
  | InvalidLine
  | DuplicateField
  | InvalidDate
deriving DecidableEq, Repr

/-- Rust `struct ParseError`: the line number (the code documents it as
1-based) plus the kind of error. -/
structure ParseError where
  line_no : Nat
  kind : ParseErrorKind
deriving DecidableEq, Repr

/-- Match of the full `LINE_RE` pattern `([A-Z][A-Z0-9])  - (.*)` starting at
the head of the list: two tag characters, two spaces, a dash, a space, then
`.*` greedily captures the (possibly empty) run of non-newline characters. -/
def lineMatchAt : List Char → Option (String × String)
  | c1 :: c2 :: s1 :: s2 :: d :: s3 :: rest =>
    if isUpperAZ c1 ∧ isUpperOrDigitAZ c2
        ∧ s1 = ' ' ∧ s2 = ' ' ∧ d = '-' ∧ s3 = ' ' then
      some (⟨[c1, c2]⟩, ⟨rest.takeWhile (fun ch => ch != '\n')⟩)
    else none
  | _ => none

/-- Unanchored search of `LINE_RE` (`Regex::captures` semantics): the match
starting at the leftmost possible position wins; `none` models the
`InvalidLine` rejection. -/
def extractLine : List Char → Option (String × String)
  | [] => none
  | c :: rest =>
    match lineMatchAt (c :: rest) with
    | some r => some r
    | none => extractLine rest

example : extractLine "TY  - JOUR".data = some ("TY", "JOUR") := by decide
example : extractLine " TY  - x".data = some ("TY", "x") := by decide
example : extractLine "ER  - ".data = some ("ER", "") := by decide
example : extractLine "T1  -  a - b".data = some ("T1", " a - b") := by decide
example : extractLine "ty  - x".data = none := by decide
example : extractLine "T1 - x".data = none := by decide

-- Decidable equality for `Except`, needed to `decide` concrete parser results.
deriving instance DecidableEq for Except

/-- State of Rust's `PartialEntry { entry: Option<Entry>, state: ParseState }`.
The `Option` and the `ParseState` are fused: the `unwrap()` calls in
`parse_line` and the two `FromStr` drivers witness that `entry` is `Some`
exactly in the `InProgress` and `End` states, so the three constructors below
are the reachable configurations.  `ended` is Rust's `ParseState::End`. -/
inductive EntryState where
  | start
  | inProgress (e : Entry)
  | ended (e : Entry)
deriving DecidableEq, Repr

/-- Rust `set_unique_field` at type `String` (`String::from_str` is the
infallible identity): a second write fails with `DuplicateField` at the
current line, otherwise the slot is filled and parsing stays in progress. -/
def setUnique (field : Option String) (value : String) (line_no : Nat)
    (set : String → Entry) : Except ParseError EntryState :=
  match field with
  | some _ => .error ⟨line_no, .DuplicateField⟩
  | none => .ok (.inProgress (set value))

/-- Rust `set_unique_field` at type `PublicationDate`: the duplicate check
comes first (as in the source), then the value is parsed, a parse failure
surfacing as `InvalidDate` at the current line. -/
def setUniqueDate (field : Option PublicationDate) (value : String)
    (line_no : Nat) (set : PublicationDate → Entry) :
    Except ParseError EntryState :=
  match field with
  | some _ => .error ⟨line_no, .DuplicateField⟩
  | none =>
    match pubDateFromStr value with
    | some d => .ok (.inProgress (set d))
    | none => .error ⟨line_no, .InvalidDate⟩

/-- Rust `PartialEntry::parse_line`: run `LINE_RE` on the line (failure is
`InvalidLine` in every state), then dispatch on the state and the key.  The
key tests reproduce the `match` arms of the source, including the `T2` versus
`JF`/`JO` split, the `BT` conditional target and the `ER` empty-value
check. -/
def parseLine (p : EntryState) (line : String) (line_no : Nat) :
    Except ParseError EntryState :=
  match extractLine line.data with
  | none => .error ⟨line_no, .InvalidLine⟩
  | some (key, value) =>
    match p with
    | .start =>
      if key = "TY" then .ok (.inProgress (Entry.new (refTypeFromStr value)))
      else .error ⟨line_no, .UnterminatedEntry⟩
    | .ended _ => .error ⟨line_no, .TagOutsideEntry⟩
    | .inProgress e =>
      if key = "TY" then .error ⟨line_no, .UnterminatedEntry⟩
      else if key = "ID" then
        setUnique e.id value line_no fun v => { e with id := some v }
      else if key = "T1" ∨ key = "TI" then
        setUnique e.title value line_no fun v => { e with title := some v }
      else if key = "T2" then
        setUnique e.secondary_title value line_no fun v =>
          { e with secondary_title := some v }
      else if key = "T3" then
        setUnique e.tertiary_title value line_no fun v =>
          { e with tertiary_title := some v }
      else if key = "A1" ∨ key = "AU" then
        .ok (.inProgress { e with authors := e.authors ++ [value] })
      else if key = "A2" ∨ key = "ED" then
        .ok (.inProgress
          { e with secondary_authors := e.secondary_authors ++ [value] })
      else if key = "A3" then
        .ok (.inProgress
          { e with tertiary_authors := e.tertiary_authors ++ [value] })
      else if key = "Y1" ∨ key = "PY" ∨ key = "DA" then
        setUniqueDate e.primary_date value line_no fun d =>
          { e with primary_date := some d }
      else if key = "Y2" then
        setUniqueDate e.secondary_date value line_no fun d =>
          { e with secondary_date := some d }
      else if key = "N1" then
        setUnique e.notes value line_no fun v => { e with notes := some v }
      else if key = "AB" ∨ key = "N2" then
        setUnique e.abstract_ value line_no fun v =>
          { e with abstract_ := some v }
      else if key = "KW" then
        .ok (.inProgress { e with keywords := e.keywords ++ [value] })
      else if key = "RP" then
        setUnique e.reprint value line_no fun v => { e with reprint := some v }
      else if key = "AV" then
        setUnique e.availability value line_no fun v =>
          { e with availability := some v }
      else if key = "CA" then
        setUnique e.caption value line_no fun v => { e with caption := some v }
      else if key = "CN" then
        setUnique e.call_number value line_no fun v =>
          { e with call_number := some v }
      else if key = "DO" then
        setUnique e.doi value line_no fun v => { e with doi := some v }
      else if key = "SP" then
        setUnique e.start_page value line_no fun v =>
          { e with start_page := some v }
      else if key = "EP" then
        setUnique e.end_page value line_no fun v =>
          { e with end_page := some v }
      else if key = "JF" ∨ key = "JO" then
        setUnique e.journal value line_no fun v => { e with journal := some v }
      else if key = "JA" then
        setUnique e.journal_abbrev value line_no fun v =>
          { e with journal_abbrev := some v }
      else if key = "J1" then
        setUnique e.journal_abbrev_1 value line_no fun v =>
          { e with journal_abbrev_1 := some v }
      else if key = "J2" then
        setUnique e.journal_abbrev_2 value line_no fun v =>
          { e with journal_abbrev_2 := some v }
      else if key = "VL" then
        setUnique e.volume value line_no fun v => { e with volume := some v }
      else if key = "IS" then
        setUnique e.issue value line_no fun v => { e with issue := some v }
      else if key = "CY" then
        setUnique e.city value line_no fun v => { e with city := some v }
      else if key = "PB" then
        setUnique e.publisher value line_no fun v =>
          { e with publisher := some v }
      else if key = "SN" then
        setUnique e.serial_number value line_no fun v =>
          { e with serial_number := some v }
      else if key = "AD" then
        setUnique e.address value line_no fun v => { e with address := some v }
      else if key = "U1" then
        setUnique e.user_1 value line_no fun v => { e with user_1 := some v }
      else if key = "U2" then
        setUnique e.user_2 value line_no fun v => { e with user_2 := some v }
      else if key = "U3" then
        setUnique e.user_3 value line_no fun v => { e with user_3 := some v }
      else if key = "U4" then
        setUnique e.user_4 value line_no fun v => { e with user_4 := some v }
      else if key = "U5" then
        setUnique e.user_5 value line_no fun v => { e with user_5 := some v }
      else if key = "C1" then
        setUnique e.custom_1 value line_no fun v =>
          { e with custom_1 := some v }
      else if key = "C2" then
        setUnique e.custom_2 value line_no fun v =>
          { e with custom_2 := some v }
      else if key = "C3" then
        setUnique e.custom_3 value line_no fun v =>
          { e with custom_3 := some v }
      else if key = "C4" then
        setUnique e.custom_4 value line_no fun v =>
          { e with custom_4 := some v }
      else if key = "C5" then
        setUnique e.custom_5 value line_no fun v =>
          { e with custom_5 := some v }
      else if key = "C6" then
        setUnique e.custom_6 value line_no fun v =>
          { e with custom_6 := some v }
      else if key = "C7" then
        setUnique e.custom_7 value line_no fun v =>
          { e with custom_7 := some v }
      else if key = "C8" then
        setUnique e.custom_8 value line_no fun v =>
          { e with custom_8 := some v }
      else if key = "M1" then
        setUnique e.misc_1 value line_no fun v => { e with misc_1 := some v }
      else if key = "M2" then
        setUnique e.misc_2 value line_no fun v => { e with misc_2 := some v }
      else if key = "M3" then
        setUnique e.misc_3 value line_no fun v => { e with misc_3 := some v }
      else if key = "BT" then
        match e.reference_type with
        | .WholeBook =>
          setUnique e.title value line_no fun v => { e with title := some v }
        | .UnpublishedWork =>
          setUnique e.title value line_no fun v => { e with title := some v }
        | _ =>
          setUnique e.secondary_title value line_no fun v =>
            { e with secondary_title := some v }
      else if key = "ER" then
        if value = "" then .ok (.ended e)
        else .error ⟨line_no, .InvalidLine⟩
      else .error ⟨line_no, .InvalidKey⟩

/-- Accumulating pass of Rust `str::lines`: `cur` holds the current line
reversed.  At `\n` the finished line is emitted with one trailing `\r`
stripped (the `\r\n` ending); at end of input a final nonempty segment is
emitted as-is (no `\r` stripping, matching `str::lines`). -/
def rustLinesAux : List Char → List Char → List (List Char)
  | cur, [] => if cur.isEmpty then [] else [cur.reverse]
  | cur, c :: rest =>
    if c = '\n' then
      (match cur with
       | '\r' :: cur1 => cur1.reverse
       | _ => cur.reverse) :: rustLinesAux [] rest
    else rustLinesAux (c :: cur) rest

/-- Rust `str::lines`: split at `\n` or `\r\n`, the final line ending being
optional, and the empty string yielding no lines. -/
def rustLines (l : List Char) : List (List Char) := rustLinesAux [] l

example : rustLines "".data = [] := by decide
example : rustLines "a\nb".data = ["a".data, "b".data] := by decide
example : rustLines "a\r\nb\n".data = ["a".data, "b".data] := by decide
example : rustLines "\n\n".data = [[], []] := by decide

/-- A RIS reference list (Rust `struct RIS(pub Vec<Entry>)`). -/
structure RIS where
  entries : List Entry
deriving DecidableEq, Repr

/-- Loop body shared shape of Rust `impl FromStr for RIS`: fold `parse_line`
over the numbered lines, pushing the completed entry and resetting to a fresh
`PartialEntry` whenever a line returns `ParseState::End`.  Returns the
accumulated entries, the final state and the final line counter. -/
def risRun : List String → Nat → EntryState → List Entry →
    Except ParseError (List Entry × EntryState × Nat)
  | [], n, p, acc => .ok (acc, p, n)
  | l :: ls, n, p, acc =>
    match parseLine p l (n + 1) with
    | .error err => .error err
    | .ok (.ended e) => risRun ls (n + 1) .start (acc ++ [e])
    | .ok p1 => risRun ls (n + 1) p1 acc

/-- Rust `impl FromStr for RIS`: after the loop, a state still `InProgress`
fails with `UnterminatedEntry` at the last line counter value, otherwise the
accumulated entries form the document. -/
def risFromStr (s : String) : Except ParseError RIS :=
  match risRun ((rustLines s.data).map fun l => (⟨l⟩ : String)) 0 .start [] with
  | .error err => .error err
  | .ok (_, .inProgress _, n) => .error ⟨n, .UnterminatedEntry⟩
  | .ok (acc, _, _) => .ok ⟨acc⟩

/-- Loop of Rust `impl FromStr for Entry`: fold `parse_line` over the
numbered lines with no resetting (the state after `ER` stays `End`, so a
further line fails inside `parse_line`). -/
def entryRun : List String → Nat → EntryState →
    Except ParseError (EntryState × Nat)
  | [], n, p => .ok (p, n)
  | l :: ls, n, p =>
    match parseLine p l (n + 1) with
    | .error err => .error err
    | .ok p1 => entryRun ls (n + 1) p1

/-- Rust `impl FromStr for Entry`: the final state must be `End`; anything
else fails with `UnterminatedEntry` at the final line counter value (which is
`0` when the input has no lines). -/
def entryFromStr (s : String) : Except ParseError Entry :=
  match entryRun ((rustLines s.data).map fun l => (⟨l⟩ : String)) 0 .start with
  | .error err => .error err
  | .ok (.ended e, _) => .ok e
  | .ok (_, n) => .error ⟨n, .UnterminatedEntry⟩

/-- Rust `write_tag`: one `TAG  - value` line (with trailing newline) when
the field is present, nothing otherwise. -/
def writeTag (tag : String) : Option String → String
  | some v => tag ++ "  - " ++ v ++ "\n"
  | none => ""

/-- Rust `write_tag` at type `PublicationDate` (the field is displayed). -/
def writeTagDate (tag : String) : Option PublicationDate → String
  | some d => tag ++ "  - " ++ pubDateToString d ++ "\n"
  | none => ""

/-- Rust `write_tags`: one line per stored element, in stored order. -/
def writeTags (tag : String) (vs : List String) : String :=
  String.join (vs.map fun v => tag ++ "  - " ++ v ++ "\n")

/-- Rust `impl Display for Entry`, line for line: note that the source writes
the five `user_*` fields with tags `U1`..`U5` and then the eight `custom_*`
fields with tags `U1`..`U8` again (not `C1`..`C8`), exactly as the
`write_tag` calls at the end of the impl read. -/
def entryToString (e : Entry) : String :=
  "TY  - " ++ refTypeToString e.reference_type ++ "\n"
    ++ writeTag "ID" e.id
    ++ writeTag "T1" e.title
    ++ writeTag "T2" e.secondary_title
    ++ writeTag "T3" e.tertiary_title
    ++ writeTags "A1" e.authors
    ++ writeTags "A2" e.secondary_authors
    ++ writeTags "A3" e.tertiary_authors
    ++ writeTagDate "Y1" e.primary_date
    ++ writeTagDate "Y2" e.secondary_date
    ++ writeTag "N1" e.notes
    ++ writeTag "AB" e.abstract_
    ++ writeTags "KW" e.keywords
    ++ writeTag "RP" e.reprint
    ++ writeTag "AV" e.availability
    ++ writeTag "CA" e.caption
    ++ writeTag "CN" e.call_number
    ++ writeTag "DO" e.doi
    ++ writeTag "SP" e.start_page
    ++ writeTag "EP" e.end_page
    ++ writeTag "JF" e.journal
    ++ writeTag "JA" e.journal_abbrev
    ++ writeTag "J1" e.journal_abbrev_1
    ++ writeTag "J2" e.journal_abbrev_2
    ++ writeTag "VL" e.volume
    ++ writeTag "IS" e.issue
    ++ writeTag "CY" e.city
    ++ writeTag "PB" e.publisher
    ++ writeTag "SN" e.serial_number
    ++ writeTag "AD" e.address
    ++ writeTag "U1" e.user_1
    ++ writeTag "U2" e.user_2
    ++ writeTag "U3" e.user_3
    ++ writeTag "U4" e.user_4
    ++ writeTag "U5" e.user_5
    ++ writeTag "U1" e.custom_1
    ++ writeTag "U2" e.custom_2
    ++ writeTag "U3" e.custom_3
    ++ writeTag "U4" e.custom_4
    ++ writeTag "U5" e.custom_5
    ++ writeTag "U6" e.custom_6
    ++ writeTag "U7" e.custom_7
    ++ writeTag "U8" e.custom_8
    ++ writeTag "M1" e.misc_1
    ++ writeTag "M2" e.misc_2
    ++ writeTag "M3" e.misc_3
    ++ "ER  - "

/-- Rust `impl Display for RIS`: format the first entry, then each further
entry preceded by one `writeln!` line break. -/
def risToString (r : RIS) : String :=
  match r.entries with
  | [] => ""
  | e :: es =>
    es.foldl (fun acc x => acc ++ "\n" ++ entryToString x) (entryToString e)

set_option maxRecDepth 40000 in
/-- Sanity check mirroring the repository test `deserialize_one_record`. -/
example :
    risFromStr "TY  - JOUR\nAU  - Shannon, Claude E.\nPY  - 1948/07//\nTI  - A Mathematical Theory of Communication\nT2  - Bell System Technical Journal\nSP  - 379\nEP  - 423\nVL  - 27\nER  - "
      = .ok ⟨[{ Entry.new .Journal with
                  authors := ["Shannon, Claude E."]
                  primary_date := some ⟨1948, some 7, none, none⟩
                  title := some "A Mathematical Theory of Communication"
                  secondary_title := some "Bell System Technical Journal"
                  start_page := some "379"
                  end_page := some "423"
                  volume := some "27" }]⟩ := by decide

set_option maxRecDepth 40000 in
/-- Sanity check mirroring the repository test `serialize_one_record`. -/
example :
    risToString ⟨[{ Entry.new .Journal with
                      authors := ["Shannon, Claude E."]
                      primary_date := some ⟨1948, some 7, none, none⟩
                      title := some "A Mathematical Theory of Communication"
                      secondary_title := some "Bell System Technical Journal"
                      start_page := some "379"
                      end_page := some "423"
                      volume := some "27" }]⟩
      = "TY  - JOUR\nT1  - A Mathematical Theory of Communication\nT2  - Bell System Technical Journal\nA1  - Shannon, Claude E.\nY1  - 1948/07//\nSP  - 379\nEP  - 423\nVL  - 27\nER  - " := by
  decide

/-- Success of a `LINE_RE` match starting exactly at the head of the list. -/
lemma lineMatchAt_isSome_iff (l : List Char) :
    (lineMatchAt l).isSome = true ↔
      ∃ c1 c2 post, l = c1 :: c2 :: ' ' :: ' ' :: '-' :: ' ' :: post ∧
        isUpperAZ c1 = true ∧ isUpperOrDigitAZ c2 = true := by
  obtain _ | ⟨c1, _ | ⟨c2, _ | ⟨s1, _ | ⟨s2, _ | ⟨d, _ | ⟨s3, rest⟩⟩⟩⟩⟩⟩ := l
  · simp [lineMatchAt]
  · simp [lineMatchAt]
  · simp [lineMatchAt]
  · simp [lineMatchAt]
  · simp [lineMatchAt]
  · simp [lineMatchAt]
  · simp only [lineMatchAt]
    split
    case isTrue h =>
      obtain ⟨h1, h2, rfl, rfl, rfl, rfl⟩ := h
      exact iff_of_true rfl ⟨c1, c2, rest, rfl, h1, h2⟩
    case isFalse h =>
      refine iff_of_false (by simp) ?_
      rintro ⟨c1', c2', post', heq, h1, h2⟩
      obtain ⟨rfl, rfl, rfl, rfl, rfl, rfl, rfl⟩ :
          c1 = c1' ∧ c2 = c2' ∧ s1 = ' ' ∧ s2 = ' ' ∧ d = '-' ∧ s3 = ' '
            ∧ rest = post' := by
        simpa using heq
      exact h ⟨h1, h2, rfl, rfl, rfl, rfl⟩

/-- The unanchored `LINE_RE` search succeeds exactly on the lines that
contain the tag/delimiter pattern at some position. -/
lemma extractLine_isSome_iff (l : List Char) :
    (extractLine l).isSome = true ↔
      ∃ p c1 c2 post, l = p ++ c1 :: c2 :: ' ' :: ' ' :: '-' :: ' ' :: post ∧
        isUpperAZ c1 = true ∧ isUpperOrDigitAZ c2 = true := by
  induction l with
  | nil =>
    simp [extractLine]
  | cons c rest ih =>
    simp only [extractLine]
    cases hm : lineMatchAt (c :: rest) with
    | some r =>
      have hs : (lineMatchAt (c :: rest)).isSome = true := by rw [hm]; rfl
      obtain ⟨c1, c2, post, heq, h1, h2⟩ := (lineMatchAt_isSome_iff _).mp hs
      exact iff_of_true rfl ⟨[], c1, c2, post, by simpa using heq, h1, h2⟩
    | none =>
      rw [ih]
      constructor
      · rintro ⟨p, c1, c2, post, heq, h1, h2⟩
        exact ⟨c :: p, c1, c2, post, by rw [heq]; rfl, h1, h2⟩
      · rintro ⟨p, c1, c2, post, heq, h1, h2⟩
        cases p with
        | nil =>
          exfalso
          have hs : (lineMatchAt (c :: rest)).isSome = true :=
            (lineMatchAt_isSome_iff _).mpr
              ⟨c1, c2, post, by simpa using heq, h1, h2⟩
          rw [hm] at hs
          exact Bool.false_ne_true hs
        | cons a p1 =>
          injection heq with hc hrest
          exact ⟨p1, c1, c2, post, hrest, h1, h2⟩

/-- Success of a `DATE_RE` match starting exactly at the head of the list:
only the four year digits (Unicode `Nd`) are mandatory. -/
lemma dateMatchAt_isSome_iff (l : List Char) :
    (dateMatchAt l).isSome = true ↔
      ∃ d1 d2 d3 d4 rest, l = d1 :: d2 :: d3 :: d4 :: rest ∧
        isNd d1 = true ∧ isNd d2 = true ∧ isNd d3 = true ∧
        isNd d4 = true := by
  obtain _ | ⟨d1, _ | ⟨d2, _ | ⟨d3, _ | ⟨d4, rest⟩⟩⟩⟩ := l
  · simp [dateMatchAt]
  · simp [dateMatchAt]
  · simp [dateMatchAt]
  · simp [dateMatchAt]
  · simp only [dateMatchAt]
    split
    case isTrue h =>
      obtain ⟨h1, h2, h3, h4⟩ := h
      exact iff_of_true rfl ⟨d1, d2, d3, d4, rest, rfl, h1, h2, h3, h4⟩
    case isFalse h =>
      refine iff_of_false (by simp) ?_
      rintro ⟨d1', d2', d3', d4', rest', heq, h1, h2, h3, h4⟩
      obtain ⟨rfl, rfl, rfl, rfl, rfl⟩ :
          d1 = d1' ∧ d2 = d2' ∧ d3 = d3' ∧ d4 = d4' ∧ rest = rest' := by
        simpa using heq
      exact h ⟨h1, h2, h3, h4⟩

/-- The unanchored `DATE_RE` search succeeds exactly on the strings that
contain four consecutive Unicode decimal digits somewhere. -/
lemma findDate_isSome_iff (l : List Char) :
    (findDate l).isSome = true ↔
      ∃ p d1 d2 d3 d4 post, l = p ++ d1 :: d2 :: d3 :: d4 :: post ∧
        isNd d1 = true ∧ isNd d2 = true ∧ isNd d3 = true ∧
        isNd d4 = true := by
  induction l with
  | nil =>
    simp [findDate]
  | cons c rest ih =>
    simp only [findDate]
    cases hm : dateMatchAt (c :: rest) with
    | some r =>
      have hs : (dateMatchAt (c :: rest)).isSome = true := by rw [hm]; rfl
      obtain ⟨d1, d2, d3, d4, post, heq, h1, h2, h3, h4⟩ :=
        (dateMatchAt_isSome_iff _).mp hs
      exact iff_of_true rfl
        ⟨[], d1, d2, d3, d4, post, by simpa using heq, h1, h2, h3, h4⟩
    | none =>
      rw [ih]
      constructor
      · rintro ⟨p, d1, d2, d3, d4, post, heq, h1, h2, h3, h4⟩
        exact ⟨c :: p, d1, d2, d3, d4, post, by rw [heq]; rfl, h1, h2, h3, h4⟩
      · rintro ⟨p, d1, d2, d3, d4, post, heq, h1, h2, h3, h4⟩
        cases p with
        | nil =>
          exfalso
          have hs : (dateMatchAt (c :: rest)).isSome = true :=
            (dateMatchAt_isSome_iff _).mpr
              ⟨d1, d2, d3, d4, post, by simpa using heq, h1, h2, h3, h4⟩
          rw [hm] at hs
          exact Bool.false_ne_true hs
        | cons a p1 =>
          injection heq with hc hrest
          exact ⟨p1, d1, d2, d3, d4, post, hrest, h1, h2, h3, h4⟩

/-- ASCII digits are Unicode decimal digits (the first `ndRanges` entry). -/
lemma isNd_of_isDigit (c : Char) (h : c.isDigit = true) : isNd c = true := by
  simp only [Char.isDigit, Bool.and_eq_true, decide_eq_true_eq, ge_iff_le] at h
  obtain ⟨h1, h2⟩ := h
  rw [UInt32.le_def, BitVec.le_def] at h1 h2
  simp only [isNd, ndRanges, List.any_cons, Bool.or_eq_true, Bool.and_eq_true,
    decide_eq_true_eq]
  exact Or.inl ⟨h1, h2⟩

/-- The `i32` parse of a captured digit group succeeds exactly when the
group is a nonempty all-ASCII-digit run. -/
lemma parseI32Digits_isSome (l : List Char) :
    (parseI32Digits l).isSome = true ↔
      l ≠ [] ∧ l.all Char.isDigit = true := by
  unfold parseI32Digits
  split
  case isTrue h =>
    simp only [Bool.and_eq_true, Bool.not_eq_true'] at h
    refine iff_of_true rfl ⟨?_, h.2⟩
    intro hnil
    rw [hnil] at h
    exact absurd h.1 (by simp)
  case isFalse h =>
    refine iff_of_false (by simp) ?_
    rintro ⟨hne, hall⟩
    apply h
    simp only [Bool.and_eq_true, Bool.not_eq_true']
    refine ⟨?_, hall⟩
    cases l with
    | nil => exact absurd rfl hne
    | cons a t => rfl

/-- The transposed parse of an optional group succeeds exactly when the
group, if present, is a nonempty all-ASCII-digit run. -/
lemma parseOptGroup_isSome (o : Option (List Char)) :
    (parseOptGroup o).isSome = true ↔
      ∀ l, o = some l → l ≠ [] ∧ l.all Char.isDigit = true := by
  cases o with
  | none => simp [parseOptGroup]
  | some l =>
    rw [show (∀ l1, some l = some l1 → l1 ≠ [] ∧ l1.all Char.isDigit = true)
        ↔ (l ≠ [] ∧ l.all Char.isDigit = true) from
      ⟨fun h => h l rfl, fun h l1 e => by cases e; exact h⟩]
    rw [← parseI32Digits_isSome]
    unfold parseOptGroup
    cases hp : parseI32Digits l <;> simp [hp]

/-- Overall success of date parsing: `DATE_RE` must match somewhere, and
every captured numeric group (the year, and month/day when captured) must be
a nonempty all-ASCII-digit run so that its `i32` parse succeeds. -/
lemma pubDateFromStr_isSome_iff (s : String) :
    (pubDateFromStr s).isSome = true ↔
      ∃ caps, findDate s.data = some caps ∧
        (caps.year ≠ [] ∧ caps.year.all Char.isDigit = true) ∧
        (∀ l, caps.month = some l → l ≠ [] ∧ l.all Char.isDigit = true) ∧
        (∀ l, caps.day = some l → l ≠ [] ∧ l.all Char.isDigit = true) := by
  unfold pubDateFromStr
  cases hfd : findDate s.data with
  | none => simp
  | some caps =>
    simp only [Option.some.injEq]
    rw [show (∃ caps1, caps = caps1 ∧
          (caps1.year ≠ [] ∧ caps1.year.all Char.isDigit = true) ∧
          (∀ l, caps1.month = some l → l ≠ [] ∧ l.all Char.isDigit = true) ∧
          (∀ l, caps1.day = some l → l ≠ [] ∧ l.all Char.isDigit = true))
        ↔ ((caps.year ≠ [] ∧ caps.year.all Char.isDigit = true) ∧
          (∀ l, caps.month = some l → l ≠ [] ∧ l.all Char.isDigit = true) ∧
          (∀ l, caps.day = some l → l ≠ [] ∧ l.all Char.isDigit = true)) from
      ⟨fun ⟨c, hc, h⟩ => hc ▸ h, fun h => ⟨caps, rfl, h⟩⟩]
    rw [← parseI32Digits_isSome, ← parseOptGroup_isSome caps.month,
      ← parseOptGroup_isSome caps.day]
    cases hy : parseI32Digits caps.year <;>
      cases hm : parseOptGroup caps.month <;>
        cases hd : parseOptGroup caps.day <;>
          simp [hy, hm, hd]


/-- The running `String.intercalate.go` accumulator agrees with the fold the
Rust `Display for RIS` loop performs. -/
lemma intercalateGo_eq_foldl (as : List Entry) (acc : String) :
    String.intercalate.go acc "\n" (as.map entryToString) =
      as.foldl (fun a x => a ++ "\n" ++ entryToString x) acc := by
  induction as generalizing acc with
  | nil => rfl
  | cons a as ih =>
    simp only [List.map_cons, List.foldl_cons, String.intercalate.go]
    exact ih _
/-- Looking up any string in a table whose every pair serializes back to its
own code yields a reference type that serializes back to the string itself
(the fall-through `Other` arm handles the miss). -/
lemma tableLookup_sound (s : String) (t : List (String × ReferenceType))
    (h : ∀ p ∈ t, refTypeToString p.2 = p.1) :
    refTypeToString (tableLookup s t) = s := by
  induction t with
  | nil => rfl
  | cons p rest ih =>
    obtain ⟨c, r⟩ := p
    simp only [tableLookup]
    split
    case isTrue heq =>
      subst heq
      exact h (s, r) (List.mem_cons_self _ _)
    case isFalse hne =>
      exact ih fun q hq => h q (List.mem_cons_of_mem _ hq)

/-- C5: reference-type parsing is total and serialization inverts it: for
every string `s` (known code or not), `refTypeToString (refTypeFromStr s)`
is `s` itself, covering both halves of the claim (known codes map to their
named variant and back to the same canonical code; any other string passes
through `Other` verbatim). -/
theorem C5_reference_type_fidelity :
    ∀ s : String, refTypeToString (refTypeFromStr s) = s := by
  intro s
  exact tableLookup_sound s refTypeTable (by decide)

set_option maxRecDepth 40000 in
/-- C1: the full-dates round trip `parse(serialize(e)) == e` fails on the
code.  `Display for Entry` writes the `custom_*` fields with tags `U1`..`U8`
(the crate's own field table documents them as `C1`..`C8`), so an entry with
`custom_1` set serializes to a `U1` line that reparses into `user_1`, and an
entry with `custom_6` set serializes to a `U6` line that reparsing rejects as
`InvalidKey` — both contradict the claim even though no date field is
involved at all. -/
theorem C1_roundtrip_code_bug :
    entryFromStr (entryToString { Entry.new .Journal with custom_1 := some "x" })
      = .ok { Entry.new .Journal with user_1 := some "x" } ∧
    entryFromStr (entryToString { Entry.new .Journal with custom_6 := some "x" })
      = .error ⟨2, .InvalidKey⟩ ∧
    ({ Entry.new .Journal with user_1 := some "x" } : Entry)
      ≠ { Entry.new .Journal with custom_1 := some "x" } := by
  refine ⟨by decide, by decide, by decide⟩

set_option maxRecDepth 40000 in
/-- C2 counterexample: the claim requires the extractor to fail on every
line that is not entirely of the form `tag ++ "  - " ++ value`, but
`LINE_RE` is unanchored, so the line `" TY  - x"` (leading space: its first
two characters are not an uppercase tag) is accepted, and a whole document
whose `TY` line carries that leading junk parses successfully. -/
theorem C2_counterexample :
    extractLine " TY  - x".data = some ("TY", "x") ∧
    risFromStr " TY  - JOUR\nER  - " = .ok ⟨[Entry.new .Journal]⟩ := by
  refine ⟨by decide, by decide⟩

/-- C2 amended: the extractor succeeds exactly when the line CONTAINS the
pattern `[A-Z][A-Z0-9]`, two spaces, dash, space at some position (not only
when the entire line has that shape); the leftmost such position supplies
the tag, the value being the whole rest of the line from there; and a line
with no such position fails with `InvalidLine` carrying the given 1-based
line number, in every parser state. -/
theorem C2_amended_extractor :
    (∀ l : List Char,
       (extractLine l).isSome = true ↔
         ∃ p c1 c2 post,
           l = p ++ c1 :: c2 :: ' ' :: ' ' :: '-' :: ' ' :: post ∧
             isUpperAZ c1 = true ∧ isUpperOrDigitAZ c2 = true) ∧
    (∀ (c1 c2 : Char) (post : List Char),
       isUpperAZ c1 = true → isUpperOrDigitAZ c2 = true →
         extractLine (c1 :: c2 :: ' ' :: ' ' :: '-' :: ' ' :: post)
           = some (⟨[c1, c2]⟩, ⟨post.takeWhile (fun ch => ch != '\n')⟩)) ∧
    (∀ (line : String) (n : Nat) (p : EntryState),
       extractLine line.data = none →
         parseLine p line n = .error ⟨n, .InvalidLine⟩) := by
  refine ⟨extractLine_isSome_iff, ?_, ?_⟩
  · intro c1 c2 post h1 h2
    simp [extractLine, lineMatchAt, h1, h2]
  · intro line n p h
    unfold parseLine
    rw [h]

/-- C2 witness: the amended theorem applied at the concrete tag `AB`, value
`z`, and at the concrete malformed line `??`. -/
theorem C2_amended_extractor_witness :
    extractLine ('A' :: 'B' :: ' ' :: ' ' :: '-' :: ' ' :: "z".data)
      = some ("AB", "z") ∧
    parseLine .start "??" 1 = .error ⟨1, .InvalidLine⟩ := by
  exact ⟨C2_amended_extractor.2.1 'A' 'B' "z".data rfl rfl,
         C2_amended_extractor.2.2 "??" 1 .start rfl⟩

/-- C3 counterexample: the claim requires every string outside the grammar
`YYYY(/MM?(/DD?(/OTHER?)?)?)?` to be rejected, but `DATE_RE` is unanchored:
`"1998/3//"` (a one-digit month, outside the grammar) parses as the bare
year 1998 with the trailing `/3//` silently ignored, and `"x1998y"`
(surrounding junk) parses the same way. -/
theorem C3_counterexample :
    pubDateFromStr "1998/3//" = some ⟨1998, none, none, none⟩ ∧
    pubDateFromStr "x1998y" = some ⟨1998, none, none, none⟩ := by
  refine ⟨by decide, by decide⟩

/-- C3 amended: date parsing succeeds exactly when the unanchored `DATE_RE`
finds a match — the string contains four consecutive Unicode decimal digits,
the leftmost such position winning and any surrounding junk (including a
one-digit month) being ignored rather than rejected — AND every captured
numeric group is an all-ASCII-digit run, so that its Rust `i32` parse
succeeds; otherwise the date fails (surfacing as `InvalidDate`).  A bare
four-ASCII-digit string yields that year with month, day and other_info all
absent; a date whose digits are non-ASCII (e.g. an Arabic-Indic month or
year) matches the regex but fails the `i32` parse. -/
theorem C3_amended_date_grammar :
    (∀ l : List Char,
       (findDate l).isSome = true ↔
         ∃ p d1 d2 d3 d4 post,
           l = p ++ d1 :: d2 :: d3 :: d4 :: post ∧
             isNd d1 = true ∧ isNd d2 = true ∧ isNd d3 = true ∧
             isNd d4 = true) ∧
    (∀ s : String,
       (pubDateFromStr s).isSome = true ↔
         ∃ caps, findDate s.data = some caps ∧
           (caps.year ≠ [] ∧ caps.year.all Char.isDigit = true) ∧
           (∀ l, caps.month = some l → l ≠ [] ∧ l.all Char.isDigit = true) ∧
           (∀ l, caps.day = some l → l ≠ [] ∧ l.all Char.isDigit = true)) ∧
    (∀ d1 d2 d3 d4 : Char,
       d1.isDigit = true → d2.isDigit = true → d3.isDigit = true →
         d4.isDigit = true →
         pubDateFromStr ⟨[d1, d2, d3, d4]⟩
           = some ⟨yearVal d1 d2 d3 d4, none, none, none⟩) ∧
    (∀ (e : Entry) (n : Nat),
       parseLine (.inProgress { e with primary_date := none })
           "Y1  - nodigits" n
         = .error ⟨n, .InvalidDate⟩) ∧
    pubDateFromStr "1998/٥٥/" = none ∧
    pubDateFromStr "٥٥٥٥1998" = none := by
  refine ⟨findDate_isSome_iff, pubDateFromStr_isSome_iff, ?_,
    fun e n => rfl, by decide, by decide⟩
  intro d1 d2 d3 d4 h1 h2 h3 h4
  have n1 := isNd_of_isDigit d1 h1
  have n2 := isNd_of_isDigit d2 h2
  have n3 := isNd_of_isDigit d3 h3
  have n4 := isNd_of_isDigit d4 h4
  have hmatch : findDate [d1, d2, d3, d4]
      = some ⟨[d1, d2, d3, d4], none, none, none⟩ := by
    simp [findDate, dateMatchAt, dateTail, n1, n2, n3, n4]
  have hp : parseI32Digits [d1, d2, d3, d4] = some (yearVal d1 d2 d3 d4) := by
    unfold parseI32Digits
    rw [if_pos (by simp [h1, h2, h3, h4])]
    simp only [List.foldl, Option.some.injEq, yearVal]
    ring
  show pubDateFromStr ⟨[d1, d2, d3, d4]⟩ = _
  unfold pubDateFromStr
  rw [show (⟨[d1, d2, d3, d4]⟩ : String).data = [d1, d2, d3, d4] from rfl,
    hmatch]
  simp only [hp, parseOptGroup]

/-- C3 witness: the amended theorem applied at the concrete bare year
`2001` and at a concrete entry with an unparsable `Y1` value. -/
theorem C3_amended_date_grammar_witness :
    pubDateFromStr "2001" = some ⟨2001, none, none, none⟩ ∧
    parseLine (.inProgress { Entry.new .Journal with primary_date := none })
        "Y1  - nodigits" 4
      = .error ⟨4, .InvalidDate⟩ := by
  exact ⟨C3_amended_date_grammar.2.2.1 '2' '0' '0' '1' rfl rfl rfl rfl,
         C3_amended_date_grammar.2.2.2.1 (Entry.new .Journal) 4⟩

/-- C4: document serialization joins the entries' texts with exactly one
separating line break before every entry after the first (the spec's "blank
line between consecutive entries", realized as the single `writeln!`), i.e.
it is `String.intercalate "\n"`; the empty document serializes to the empty
string; and every entry's text ends with the line `ER  - `, so there is no
trailing newline after the last entry. -/
theorem C4_document_join :
    (∀ es : List Entry,
       risToString ⟨es⟩ = String.intercalate "\n" (es.map entryToString)) ∧
    risToString ⟨[]⟩ = "" ∧
    (∀ e : Entry, ∃ t : String, entryToString e = t ++ "ER  - ") := by
  refine ⟨?_, rfl, fun e => ⟨_, rfl⟩⟩
  intro es
  cases es with
  | nil => rfl
  | cons e es =>
    simp only [risToString, List.map_cons, String.intercalate]
    exact (intercalateGo_eq_foldl es (entryToString e)).symm

/-- C6 counterexample: the claim says `T2`, `JF` and `JO` share one slot, so
an entry with one `T2` line and one `JF` line should fail with
`DuplicateField` at the second of them; in the code `T2` writes
`secondary_title` while `JF`/`JO` write the separate `journal` field, and
this document parses successfully with both fields set. -/
theorem C6_counterexample :
    risFromStr "TY  - JOUR\nT2  - a\nJF  - b\nER  - "
      = .ok ⟨[{ Entry.new .Journal with
                  secondary_title := some "a", journal := some "b" }]⟩ := by
  decide

/-- C6 amended: only `JF` and `JO` are synonyms, sharing the `journal` slot
(a second write through either tag fails with `DuplicateField` at the line
of the second occurrence), while `T2` writes the distinct `secondary_title`
slot, so a `JF` line is accepted even when `secondary_title` is already
filled. -/
theorem C6_amended_journal_synonyms :
    (∀ (e : Entry) (j : String) (n : Nat),
       parseLine (.inProgress { e with journal := some j }) "JO  - x" n
         = .error ⟨n, .DuplicateField⟩) ∧
    (∀ (e : Entry) (j : String) (n : Nat),
       parseLine (.inProgress { e with journal := some j }) "JF  - x" n
         = .error ⟨n, .DuplicateField⟩) ∧
    (∀ (e : Entry) (t : String) (n : Nat),
       parseLine (.inProgress { e with secondary_title := some t, journal := none })
           "JF  - x" n
         = .ok (.inProgress
             { e with secondary_title := some t, journal := some "x" })) ∧
    risFromStr "TY  - JOUR\nJF  - a\nJO  - b\nER  - "
      = .error ⟨3, .DuplicateField⟩ := by
  refine ⟨fun e j n => rfl, fun e j n => rfl, fun e t n => rfl, by decide⟩

/-- C7: with a unique slot already filled (here `title`, written by the
synonyms `T1`/`TI`), any second write — same tag or synonym, over any entry
and any line number `n` — fails with `DuplicateField` at `n`, the line of
the second occurrence (the error aborts the parse, so the first value is
never overwritten); concretely, `T1` then `T1` and `T1` then `TI` both fail
at line 3. -/
theorem C7_duplicate_unique_field :
    (∀ (e : Entry) (t : String) (n : Nat),
       parseLine (.inProgress { e with title := some t }) "T1  - b" n
         = .error ⟨n, .DuplicateField⟩) ∧
    (∀ (e : Entry) (t : String) (n : Nat),
       parseLine (.inProgress { e with title := some t }) "TI  - b" n
         = .error ⟨n, .DuplicateField⟩) ∧
    entryFromStr "TY  - JOUR\nT1  - a\nT1  - b\nER  - "
      = .error ⟨3, .DuplicateField⟩ ∧
    entryFromStr "TY  - JOUR\nT1  - a\nTI  - b\nER  - "
      = .error ⟨3, .DuplicateField⟩ := by
  refine ⟨fun e t n => rfl, fun e t n => rfl, by decide, by decide⟩

/-- C8: a line whose extracted tag is `TY` while an entry is open fails with
`UnterminatedEntry` carrying that line's 1-based number; and when the input
ends with the document parser still in the `InProgress` state, the parse
fails with `UnterminatedEntry` (at the final line counter). -/
theorem C8_unterminated_entry :
    (∀ (e : Entry) (line : String) (v : String) (n : Nat),
       extractLine line.data = some ("TY", v) →
         parseLine (.inProgress e) line n = .error ⟨n, .UnterminatedEntry⟩) ∧
    (∀ (s : String) (acc : List Entry) (e : Entry) (n : Nat),
       risRun ((rustLines s.data).map fun l => (⟨l⟩ : String)) 0 .start []
           = .ok (acc, .inProgress e, n) →
         risFromStr s = .error ⟨n, .UnterminatedEntry⟩) := by
  constructor
  · intro e line v n h
    unfold parseLine
    rw [h]
    rfl
  · intro s acc e n h
    unfold risFromStr
    rw [h]

/-- C8 witness: the theorem applied at a concrete nested `TY` line (line 2)
and at a concrete two-line document that ends without `ER`. -/
theorem C8_unterminated_entry_witness :
    parseLine (.inProgress (Entry.new .Journal)) "TY  - BOOK" 2
      = .error ⟨2, .UnterminatedEntry⟩ ∧
    risFromStr "TY  - JOUR\nT1  - a" = .error ⟨2, .UnterminatedEntry⟩ := by
  exact ⟨C8_unterminated_entry.1 (Entry.new .Journal) "TY  - BOOK" "BOOK" 2
           (by decide),
         C8_unterminated_entry.2 "TY  - JOUR\nT1  - a" []
           { Entry.new .Journal with title := some "a" } 2 (by decide)⟩

/-- C9: parsing `"1998"` yields year 1998 with month, day and other_info all
absent, while serializing that value emits the three separating slashes
unconditionally, giving `"1998///"` and not `"1998"`; year is zero-padded to
4 digits and month/day to 2 digits when present. -/
theorem C9_terse_date_asymmetry :
    pubDateFromStr "1998" = some ⟨1998, none, none, none⟩ ∧
    pubDateToString ⟨1998, none, none, none⟩ = "1998///" ∧
    pubDateToString ⟨1998, none, none, none⟩ ≠ "1998" ∧
    pubDateToString ⟨7, some 3, some 4, some "x"⟩ = "0007/03/04/x" ∧
    pubDateToString ⟨1998, some 12, none, some "info"⟩ = "1998/12//info" := by
  refine ⟨by decide, by decide, by decide, by decide, by decide⟩

/-- C10: the single-entry parser on the empty string reports
`UnterminatedEntry` with line number 0 — the loop counter is never
incremented because `str::lines` yields no lines, so the reported position
sits below the 1-based numbering documented for `ParseError`. -/
theorem C10_empty_entry_line_zero :
    entryFromStr "" = .error ⟨0, .UnterminatedEntry⟩ := by decide
